import Mathlib

/-!
Shallow embedding of `src/dbus_api/api/manager_3_0/methods.rs` from stratisd.

Each D-Bus method handler is modelled as a pure Lean function.  Results of
external collaborators (the engine, the argument parsers) are passed in as
explicit arguments, and the handler's own control flow — which is what the
source file contains — is translated statement by statement.  Side effects
other than the reply (engine invocations, ledger insertions, D-Bus object
removal announcements) are recorded in an explicit `Effect` list so that
"the engine is never called" becomes a statement about the handler's output.

The `POOL_SETUP_STATE` ledger guarded by `POOL_CONDVAR` is modelled as an
association-list map, and `Condvar::wait_timeout_while` as a loop over a
schedule of producer events: each event is a ledger mutation performed by
another thread under the lock followed by a broadcast wake-up, after which
the waiter re-evaluates its predicate.  Because the source holds the mutex
guard from the `insert` through the start of the wait, no event can
interleave between the insertion and the first predicate check; the model
reflects this by construction (the event schedule is consumed only at wait
points).  Timeout is modelled as exhaustion of the event schedule while the
predicate still holds, matching `wait_timeout_while` returning with
`timed_out() == true`.
-/

namespace Stratisd

/-- Pool UUIDs: opaque identifiers, modelled by their string rendering
(`uuid_to_string!` / `Display` output). -/
abbrev PoolUuid := String

/-- `uuid_to_string!(PoolUuid::nil())`: rendering of the nil UUID. -/
def nilUuidString : String := "00000000-0000-0000-0000-000000000000"

/-- A validated key description (`engine::KeyDescription`); its internal
structure is irrelevant to the handlers, which only pass it on. -/
abbrev KeyDescription := String

/-- A parsed Clevis policy value (`serde_json::Value`); opaque to the
handlers, which only pass it on. -/
abbrev Json := String

/-- `OK_STRING` from `dbus_api::types`: the message accompanying code OK. -/
def okString : String := "Ok"

/-- Modelled from the spec: `DbusErrorEnum` (in `dbus_api::types`, not under
src/) — reply code 0 means success, any non-zero code is an error (§3
Reply Envelope, §4.2). -/
def DbusErrorEnum.OK : Nat := 0

/-- Modelled from the spec: the single non-zero error code produced by the
error classifier (§4.2: code 0 is reserved for success and never produced
by the classifier). -/
def DbusErrorEnum.ERROR : Nat := 1

/-- `stratis::StratisError`, restricted to the variants the handlers in this
file construct or receive. -/
inductive StratisError where
  | Msg : String → StratisError
  | Chained : String → StratisError → StratisError
  | Serde : String → StratisError
  | Engine : String → StratisError
deriving Repr, DecidableEq

/-- Modelled from the spec: the classifier renders the full cause chain of a
chained error into the message (§4.2: "chained/wrapped errors must render
their full cause chain"). -/
def StratisError.render : StratisError → String
  | .Msg s => s
  | .Chained s e => s ++ ": " ++ e.render
  | .Serde s => s
  | .Engine s => s

/-- Modelled from the spec: `engine_to_dbus_err_tuple` (in `dbus_api::util`,
not under src/) — maps every domain error to a non-zero code together with
the rendered message (§4.2: `classify(error) -> (code, message)`, code 0
never produced). -/
def engine_to_dbus_err_tuple (e : StratisError) : Nat × String :=
  (DbusErrorEnum.ERROR, e.render)

/-- The reply triple appended to the return message by `append3`:
`(payload, code, message)`. -/
structure Reply (α : Type) where
  payload : α
  code : Nat
  msg : String
deriving Repr, DecidableEq

/-- `engine::MappingDeleteAction`. -/
inductive MappingDeleteAction (α : Type) where
  | Deleted : α → MappingDeleteAction α
  | Identity : MappingDeleteAction α
deriving Repr, DecidableEq

/-- `engine::MappingCreateAction`. -/
inductive MappingCreateAction (α : Type) where
  | Created : α → MappingCreateAction α
  | ValueChanged : α → MappingCreateAction α
  | Identity : MappingCreateAction α
deriving Repr, DecidableEq

/-- `engine::DeleteAction`. -/
inductive DeleteAction (α : Type) where
  | Deleted : α → DeleteAction α
  | Identity : DeleteAction α
deriving Repr, DecidableEq

/-- `engine::CreateAction`. -/
inductive CreateAction (α : Type) where
  | Created : α → CreateAction α
  | Identity : CreateAction α
deriving Repr, DecidableEq

/-- `engine::EncryptionInfo`: which validated encryption components a pool
creation carries. -/
inductive EncryptionInfo where
  | KeyDesc : KeyDescription → EncryptionInfo
  | ClevisInfo : String × Json → EncryptionInfo
  | Both : KeyDescription → String × Json → EncryptionInfo
deriving Repr, DecidableEq

/-- Modelled from the spec: `EncryptionInfo::from_options` (engine code, not
under src/) — builds the structured encryption info from the two validated
optional components, `none` when both are absent (§4.3: "a structured
encryption info value carrying zero, one, or both validated components, or
nothing if both inputs were absent"). -/
def EncryptionInfo.from_options :
    Option KeyDescription × Option (String × Json) → Option EncryptionInfo
  | (none, none) => none
  | (some kd, none) => some (.KeyDesc kd)
  | (none, some c) => some (.ClevisInfo c)
  | (some kd, some c) => some (.Both kd c)

/-- Modelled from the spec: `tuple_to_option` (in `dbus_api::util`, not under
src/) — decodes the D-Bus `(present, value)` encoding of an optional
argument. -/
def tuple_to_option {α : Type} : Bool × α → Option α
  | (true, a) => some a
  | (false, _) => none

/-- Observable side effects of a handler other than its reply:
engine invocations, ledger insertions, and removal announcements.
`handle_action!` (a logging wrapper, not under src/) is the identity on the
wrapped result and is not modelled. -/
inductive Effect where
  | engineDestroyPool : PoolUuid → Effect
  | engineCreatePool : Option EncryptionInfo → Effect
  | engineSetKey : Effect
  | engineUnsetKey : Effect
  | ledgerInsert : PoolUuid → Effect
  | pushRemove : Effect
deriving Repr, DecidableEq

/-- `unset_key`, after transport-level argument extraction: takes the result
of `KeyDescription::try_from` on the string argument and the engine's
`unset` result, and produces the reply plus the recorded effects.  The
engine call is reached only when the key description parses. -/
def unset_key (keyDescParse : Except StratisError KeyDescription)
    (engineResult : Except StratisError (MappingDeleteAction KeyDescription)) :
    Reply Bool × List Effect :=
  let default_return := false
  match keyDescParse with
  | .error e =>
      let (rc, rs) := engine_to_dbus_err_tuple e
      ({ payload := default_return, code := rc, msg := rs }, [])
  | .ok _kd =>
      match engineResult with
      | .ok idem_resp =>
          let return_value :=
            match idem_resp with
            | .Deleted _ => true
            | .Identity => false
          ({ payload := return_value, code := DbusErrorEnum.OK, msg := okString },
           [.engineUnsetKey])
      | .error e =>
          let (rc, rs) := engine_to_dbus_err_tuple e
          ({ payload := default_return, code := rc, msg := rs }, [.engineUnsetKey])

/-- `set_key`, after transport-level argument extraction: takes the result of
`KeyDescription::try_from` and the engine's `set` result (the passphrase
file descriptor plays no role in the handler's control flow). -/
def set_key (keyDescParse : Except StratisError KeyDescription)
    (engineResult : Except StratisError (MappingCreateAction KeyDescription)) :
    Reply (Bool × Bool) × List Effect :=
  let default_return := (false, false)
  match keyDescParse with
  | .error e =>
      let (rc, rs) := engine_to_dbus_err_tuple e
      ({ payload := default_return, code := rc, msg := rs }, [])
  | .ok _kd =>
      match engineResult with
      | .ok idem_resp =>
          let return_value :=
            match idem_resp with
            | .Created _ => (true, false)
            | .ValueChanged _ => (true, true)
            | .Identity => default_return
          ({ payload := return_value, code := DbusErrorEnum.OK, msg := okString },
           [.engineSetKey])
      | .error e =>
          let (rc, rs) := engine_to_dbus_err_tuple e
          ({ payload := default_return, code := rc, msg := rs }, [.engineSetKey])

/-- `engine::types::StratisUuid`: the object tree stores each registered
object's UUID tagged with the kind of object it identifies. -/
inductive StratisUuid where
  | Pool : PoolUuid → StratisUuid
  | Fs : PoolUuid → StratisUuid
  | Blockdev : PoolUuid → StratisUuid
deriving Repr, DecidableEq

/-- Rendering of a `StratisUuid` with its variant tag, as the wrong-type
error message formats the found value. -/
def StratisUuid.describe : StratisUuid → String
  | .Pool u => "Pool " ++ u
  | .Fs u => "Fs " ++ u
  | .Blockdev u => "Blockdev " ++ u

/-- Modelled from the spec: the error produced by the `typed_uuid!` macro
(dbus_api macros, not under src/) when the resolved object's UUID is not of
the expected `Pool` variant — a domain error the classifier maps to a
non-zero code (§4.2); its message names the expected variant and the found
value. -/
def expectedPoolUuidError (found : StratisUuid) : StratisError :=
  StratisError.Msg
    ("Expected Pool UUID but found UUID with type " ++ found.describe)

/-- `destroy_pool`, after transport-level argument extraction: `resolved` is
the result of looking the supplied path up in the object tree and reading
its typed UUID (`None` when the path resolves to no object with data), and
`engineResult` is the engine's `destroy_pool` result, reached only when the
path resolved to a pool.  When the path resolves to an object of a
different kind, `typed_uuid!` early-returns the default payload with the
classified wrong-type error before any engine call. -/
def destroy_pool (resolved : Option StratisUuid)
    (engineResult : Except StratisError (DeleteAction PoolUuid)) :
    Reply (Bool × String) × List Effect :=
  let default_return := (false, nilUuidString)
  match resolved with
  | none =>
      ({ payload := default_return, code := DbusErrorEnum.OK, msg := okString }, [])
  | some (StratisUuid.Fs u) =>
      let (rc, rs) := engine_to_dbus_err_tuple (expectedPoolUuidError (.Fs u))
      ({ payload := default_return, code := rc, msg := rs }, [])
  | some (StratisUuid.Blockdev u) =>
      let (rc, rs) := engine_to_dbus_err_tuple (expectedPoolUuidError (.Blockdev u))
      ({ payload := default_return, code := rc, msg := rs }, [])
  | some (StratisUuid.Pool pool_uuid) =>
      match engineResult with
      | .ok (.Deleted uuid) =>
          ({ payload := (true, uuid), code := DbusErrorEnum.OK, msg := okString },
           [.engineDestroyPool pool_uuid, .pushRemove])
      | .ok .Identity =>
          ({ payload := default_return, code := DbusErrorEnum.OK, msg := okString },
           [.engineDestroyPool pool_uuid])
      | .error err =>
          let (rc, rs) := engine_to_dbus_err_tuple err
          ({ payload := default_return, code := rc, msg := rs },
           [.engineDestroyPool pool_uuid])

/-- A completion record published by the device-event path:
`(pool_path, [blockdev_path, ...])` (D-Bus object paths modelled as
strings). -/
abbrev Record := String × List String

/-- `POOL_SETUP_STATE`: the shared `HashMap<PoolUuid, Option<...>>` guarded
by the mutex, modelled extensionally as a partial map.  A key bound to
`none` is a pending entry whose completion record is still absent. -/
def Ledger : Type := PoolUuid → Option (Option Record)

/-- The empty ledger. -/
def Ledger.empty : Ledger := fun _ => none

/-- `HashMap::get`: `some v` when the key is present with value `v`. -/
def Ledger.get (l : Ledger) (u : PoolUuid) : Option (Option Record) := l u

/-- `HashMap::insert`: binds `u` to `v`, replacing any previous binding. -/
def Ledger.insert (l : Ledger) (u : PoolUuid) (v : Option Record) : Ledger :=
  fun x => if x = u then some v else l x

/-- `HashMap::remove`, keeping only the resulting map (the removed value is
read off with `Ledger.get` before removing, as the source's
`guard.remove(&uuid)` returns it). -/
def Ledger.remove (l : Ledger) (u : PoolUuid) : Ledger :=
  fun x => if x = u then none else l x

/-- One action of another thread performed under the ledger lock and
followed by a broadcast on `POOL_CONDVAR`:
`publish u r` is the device-event producer storing the completion record for
`u` if `u` is still in the ledger (the only write path from absent to
present); `vanish u` models the key being removed externally (the condition
the source's predicate treats as "end wait and return an error"). -/
inductive PoolEvent where
  | publish : PoolUuid → Record → PoolEvent
  | vanish : PoolUuid → PoolEvent
deriving Repr, DecidableEq

/-- Effect of a `PoolEvent` on the ledger. -/
def PoolEvent.apply : PoolEvent → Ledger → Ledger
  | .publish u r, l => if (l.get u).isSome then l.insert u (some r) else l
  | .vanish u, l => l.remove u

/-- The predicate closure passed to `wait_timeout_while` in
`handle_pool_create_wait`: keep waiting while `uuid` is present with an
absent record; stop as soon as the record is present or the key is gone. -/
def waitPred (u : PoolUuid) (l : Ledger) : Bool :=
  match l.get u with
  | some paths => paths.isNone
  | none => false

/-- `Condvar::wait_timeout_while(guard, timeout, pred)`: the predicate is
evaluated with the lock held; while it holds, the waiter sleeps until the
next wake-up, re-evaluating after every wake.  The schedule `evs` lists the
lock-protected mutations (each followed by a broadcast) that occur before
the 120-second timeout elapses; exhausting the schedule with the predicate
still true is the timeout.  Returns the final guard and `timed_out()`. -/
def waitTimeoutWhile (u : PoolUuid) : List PoolEvent → Ledger → Ledger × Bool
  | [], l => if waitPred u l then (l, true) else (l, false)
  | e :: rest, l =>
      if waitPred u l then waitTimeoutWhile u rest (e.apply l)
      else (l, false)

/-- Result of `handle_pool_create_wait`: the reply, the ledger as the
handler leaves it, and whether the wait timed out (`timed_out()`, which the
source only logs as a warning). -/
structure WaitResult where
  reply : Reply (Bool × (String × List String))
  ledger : Ledger
  timedOut : Bool

/-- `handle_pool_create_wait`: under the lock, inserts `uuid -> None` and —
still holding the guard, so nothing can change the state before the wait
begins — waits on `POOL_CONDVAR` with the looped predicate; afterwards
removes the entry and replies with the consumed record on success, or with
the classified "not found after creation was requested" error otherwise. -/
def handle_pool_create_wait (uuid : PoolUuid) (evs : List PoolEvent)
    (l0 : Ledger) (default_return : Bool × (String × List String)) :
    WaitResult :=
  let l1 := l0.insert uuid none
  let res := waitTimeoutWhile uuid evs l1
  let guard := res.1
  let timedOut := res.2
  match guard.get uuid with
  | some (some (pool_path, bd_paths)) =>
      { reply := { payload := (true, (pool_path, bd_paths)),
                   code := DbusErrorEnum.OK, msg := okString }
        ledger := guard.remove uuid
        timedOut := timedOut }
  | _ =>
      let err := StratisError.Msg
        ("Pool with UUID " ++ uuid ++ " was not found after creation was requested")
      let (rc, rs) := engine_to_dbus_err_tuple err
      { reply := { payload := default_return, code := rc, msg := rs }
        ledger := guard.remove uuid
        timedOut := timedOut }

/-- Result of `handle_pool_create` / `create_pool`: reply, final ledger,
timeout flag of the inner wait (false when no wait ran), and effects. -/
structure CreateResult where
  reply : Reply (Bool × (String × List String))
  ledger : Ledger
  timedOut : Bool
  effects : List Effect

/-- `handle_pool_create`: on `Created(uuid)` with a simulated engine
(`is_sim`), builds the full success payload synchronously from the pool the
sim engine inserted (`simPool` stands for the `(pool_path, bd_paths)` the
`create_dbus_pool` / `create_dbus_blockdev` registrations return) and never
touches the ledger; with a real engine it defers to
`handle_pool_create_wait`.  On `Identity` it replies with the default
payload and code OK. -/
def handle_pool_create (is_sim : Bool) (simPool : String × List String)
    (uuid_action : CreateAction PoolUuid) (evs : List PoolEvent)
    (l0 : Ledger) (default_return : Bool × (String × List String)) :
    CreateResult :=
  match uuid_action with
  | .Created uuid =>
      if is_sim then
        { reply := { payload := (true, simPool),
                     code := DbusErrorEnum.OK, msg := okString }
          ledger := l0
          timedOut := false
          effects := [] }
      else
        let w := handle_pool_create_wait uuid evs l0 default_return
        { reply := w.reply
          ledger := w.ledger
          timedOut := w.timedOut
          effects := [.ledgerInsert uuid] }
  | .Identity =>
      { reply := { payload := default_return,
                   code := DbusErrorEnum.OK, msg := okString }
        ledger := l0
        timedOut := false
        effects := [] }

/-- `dbus::Path::default()`: the default D-Bus object path. -/
def dbusPathDefault : String := "/"

/-- `create_pool`, after transport-level argument extraction.  Arguments:
the D-Bus optional redundancy `(present, code)`, the optional
key-description string and optional `(pin, policy-json-text)` pair in the
same encoding, `tryKeyDesc` standing for `KeyDescription::try_from`,
`parseJson` for `serde_json::from_str` on the policy text, `engineResult`
for the engine's `create_pool` outcome as a function of the encryption info
it is handed, plus the data `handle_pool_create` needs. -/
def create_pool (redundancy_tuple : Bool × Nat)
    (key_desc_arg : Bool × String)
    (clevis_arg : Bool × (String × String))
    (tryKeyDesc : String → Except StratisError KeyDescription)
    (parseJson : String → Except String Json)
    (engineResult : Option EncryptionInfo → Except StratisError (CreateAction PoolUuid))
    (is_sim : Bool) (simPool : String × List String)
    (evs : List PoolEvent) (l0 : Ledger) : CreateResult :=
  let default_return : Bool × (String × List String) :=
    (false, (dbusPathDefault, []))
  let afterRedundancy : Unit → CreateResult := fun _ =>
    let key_desc_step : Except (Nat × String) (Option KeyDescription) :=
      match tuple_to_option key_desc_arg with
      | some kds =>
          match tryKeyDesc kds with
          | .ok kd => .ok (some kd)
          | .error e => .error (engine_to_dbus_err_tuple e)
      | none => .ok none
    match key_desc_step with
    | .error (rc, rs) =>
        { reply := { payload := default_return, code := rc, msg := rs }
          ledger := l0, timedOut := false, effects := [] }
    | .ok key_desc =>
        let clevis_step : Except (Nat × String) (Option (String × Json)) :=
          match tuple_to_option clevis_arg with
          | some (pin, json_string) =>
              match parseJson json_string with
              | .ok j => .ok (some (pin, j))
              | .error e => .error (engine_to_dbus_err_tuple (.Serde e))
          | none => .ok none
        match clevis_step with
        | .error (rc, rs) =>
            { reply := { payload := default_return, code := rc, msg := rs }
              ledger := l0, timedOut := false, effects := [] }
        | .ok clevis_info =>
            let enc := EncryptionInfo.from_options (key_desc, clevis_info)
            match engineResult enc with
            | .ok pool_uuid_action =>
                let r := handle_pool_create is_sim simPool pool_uuid_action
                  evs l0 default_return
                { r with effects := .engineCreatePool enc :: r.effects }
            | .error x =>
                let (rc, rs) := engine_to_dbus_err_tuple x
                { reply := { payload := default_return, code := rc, msg := rs }
                  ledger := l0, timedOut := false
                  effects := [.engineCreatePool enc] }
  match tuple_to_option redundancy_tuple with
  | none => afterRedundancy ()
  | some 0 => afterRedundancy ()
  | some (Nat.succ m) =>
      { reply := { payload := default_return, code := 1,
                   msg := "code " ++ toString (Nat.succ m) ++
                     " does not correspond to any redundancy" }
        ledger := l0, timedOut := false, effects := [] }

/-! ### Ledger and wait lemmas -/

theorem Ledger.get_insert_self (l : Ledger) (u : PoolUuid) (v : Option Record) :
    (l.insert u v).get u = some v := by
  simp [Ledger.get, Ledger.insert]

theorem Ledger.get_insert_ne (l : Ledger) (u u' : PoolUuid) (v : Option Record)
    (h : u' ≠ u) : (l.insert u v).get u' = l.get u' := by
  simp [Ledger.get, Ledger.insert, h]

theorem Ledger.get_remove_self (l : Ledger) (u : PoolUuid) :
    (l.remove u).get u = none := by
  simp [Ledger.get, Ledger.remove]

theorem Ledger.get_remove_ne (l : Ledger) (u u' : PoolUuid)
    (h : u' ≠ u) : (l.remove u).get u' = l.get u' := by
  simp [Ledger.get, Ledger.remove, h]

/-- An event concerning a different uuid leaves `u`'s ledger entry alone. -/
theorem PoolEvent.get_apply_ne (e : PoolEvent) (l : Ledger) (u : PoolUuid)
    (hpub : ∀ r, e ≠ .publish u r) (hvan : e ≠ .vanish u) :
    (e.apply l).get u = l.get u := by
  match e with
  | .publish u' r =>
      have hne : u ≠ u' := by
        intro h
        exact hpub r (by rw [h])
      simp only [PoolEvent.apply]
      by_cases hs : (l.get u').isSome
      · simp [hs, Ledger.get_insert_ne l u' u _ hne]
      · simp [hs]
  | .vanish u' =>
      have hne : u ≠ u' := by
        intro h
        exact hvan (by rw [h])
      exact Ledger.get_remove_ne l u' u hne

/-- If the predicate is already false with the lock held, the wait returns
immediately with the guard unchanged and no timeout. -/
theorem waitTimeoutWhile_of_not_pred (u : PoolUuid) (evs : List PoolEvent)
    (l : Ledger) (h : waitPred u l = false) :
    waitTimeoutWhile u evs l = (l, false) := by
  cases evs <;> simp [waitTimeoutWhile, h]

/-- Lost-wakeup core: starting from a pending entry for `u`, if some event in
the schedule publishes a record for `u` and no event removes `u`'s key, the
wait ends without timing out and with a completion record present for `u`. -/
theorem waitTimeoutWhile_publish_observed (u : PoolUuid) :
    ∀ (evs : List PoolEvent) (l : Ledger), l.get u = some none →
      (∃ r, PoolEvent.publish u r ∈ evs) → PoolEvent.vanish u ∉ evs →
      ∃ l' r', waitTimeoutWhile u evs l = (l', false) ∧ l'.get u = some (some r') := by
  intro evs
  induction evs with
  | nil =>
      intro l _ hmem _
      rcases hmem with ⟨r, hr⟩
      exact absurd hr (List.not_mem_nil _)
  | cons e rest ih =>
      intro l hl hmem hnov
      have hpred : waitPred u l = true := by
        simp [waitPred, hl]
      by_cases hpubu : ∃ r, e = PoolEvent.publish u r
      · rcases hpubu with ⟨r, rfl⟩
        have happ : ((PoolEvent.publish u r).apply l).get u = some (some r) := by
          simp [PoolEvent.apply, Ledger.get] at hl ⊢
          simp [hl, Ledger.insert]
        have hpred2 : waitPred u ((PoolEvent.publish u r).apply l) = false := by
          simp [waitPred, happ]
        refine ⟨(PoolEvent.publish u r).apply l, r, ?_, happ⟩
        simp [waitTimeoutWhile, hpred,
          waitTimeoutWhile_of_not_pred u rest _ hpred2]
      · have hvan : e ≠ PoolEvent.vanish u := by
          intro h
          exact hnov (h ▸ List.mem_cons_self e rest)
        have hpub : ∀ r, e ≠ PoolEvent.publish u r := by
          intro r h
          exact hpubu ⟨r, h⟩
        have hget : (e.apply l).get u = some none :=
          (PoolEvent.get_apply_ne e l u hpub hvan).trans hl
        have hmem2 : ∃ r, PoolEvent.publish u r ∈ rest := by
          rcases hmem with ⟨r, hr⟩
          rcases List.mem_cons.mp hr with h | h
          · exact absurd h.symm (hpub r)
          · exact ⟨r, h⟩
        have hnov2 : PoolEvent.vanish u ∉ rest := fun h =>
          hnov (List.mem_cons_of_mem e h)
        rcases ih (e.apply l) hget hmem2 hnov2 with ⟨l', r', hrun, hget'⟩
        exact ⟨l', r', by simp [waitTimeoutWhile, hpred, hrun], hget'⟩

/-- No-publish core: if no event publishes a record for `u`, then from a
state where `u` is pending or absent, the wait ends with `u` still pending
or absent — a completion record can never be observed. -/
theorem waitTimeoutWhile_no_publish (u : PoolUuid) :
    ∀ (evs : List PoolEvent) (l : Ledger),
      (l.get u = some none ∨ l.get u = none) →
      (∀ r, PoolEvent.publish u r ∉ evs) →
      ((waitTimeoutWhile u evs l).1.get u = some none ∨
        (waitTimeoutWhile u evs l).1.get u = none) := by
  intro evs
  induction evs with
  | nil =>
      intro l hl _
      rcases hl with h | h <;> simp [waitTimeoutWhile, waitPred, h]
  | cons e rest ih =>
      intro l hl hnp
      by_cases hpred : waitPred u l = true
      · have hpub : ∀ r, e ≠ PoolEvent.publish u r := by
          intro r h
          exact hnp r (h ▸ List.mem_cons_self e rest)
        have hnp2 : ∀ r, PoolEvent.publish u r ∉ rest := fun r h =>
          hnp r (List.mem_cons_of_mem e h)
        have hget : (e.apply l).get u = some none ∨ (e.apply l).get u = none := by
          by_cases hvan : e = PoolEvent.vanish u
          · subst hvan
            right
            exact Ledger.get_remove_self l u
          · rw [PoolEvent.get_apply_ne e l u hpub hvan]
            exact hl
        have := ih (e.apply l) hget hnp2
        simpa [waitTimeoutWhile, hpred] using this
      · have h' : waitPred u l = false := by
          simpa using hpred
        rw [waitTimeoutWhile_of_not_pred u (e :: rest) l h']
        exact hl

/-- The reply of `handle_pool_create_wait` when no event publishes a record
for `uuid`: the classified "not found after creation was requested" error
with the default payload, on both the timeout and the vanished-key path. -/
theorem handle_pool_create_wait_reply_of_no_publish (u : PoolUuid)
    (evs : List PoolEvent) (l0 : Ledger)
    (d : Bool × (String × List String))
    (hnp : ∀ r, PoolEvent.publish u r ∉ evs) :
    (handle_pool_create_wait u evs l0 d).reply =
      { payload := d, code := DbusErrorEnum.ERROR,
        msg := "Pool with UUID " ++ u ++
          " was not found after creation was requested" } := by
  have hl : (l0.insert u none).get u = some none ∨ (l0.insert u none).get u = none :=
    Or.inl (Ledger.get_insert_self l0 u none)
  have hfin := waitTimeoutWhile_no_publish u evs (l0.insert u none) hl hnp
  unfold handle_pool_create_wait
  rcases hfin with h | h <;>
    simp [h, engine_to_dbus_err_tuple, StratisError.render]

theorem tuple_to_option_true {α : Type} (a : α) :
    tuple_to_option (true, a) = some a := rfl

theorem tuple_to_option_false {α : Type} (a : α) :
    tuple_to_option (false, a) = none := rfl

/-! ### Claim theorems -/

/-- C1: the ledger lock is held from the insertion of the pool uuid's
pending entry until the wait begins (in the model: no event interleaves
there), and the wait re-evaluates its predicate after every wake; hence a
producer that publishes the completion record for that uuid at any point
after insertion — the very first scheduled event included — is observed:
the wait ends without timing out and the handler replies with the success
payload, so the waiter does not hang. -/
theorem handle_pool_create_wait_no_lost_wakeup (u : PoolUuid) (r : Record)
    (evs : List PoolEvent) (l0 : Ledger) (d : Bool × (String × List String))
    (hmem : PoolEvent.publish u r ∈ evs)
    (hnov : PoolEvent.vanish u ∉ evs) :
    (handle_pool_create_wait u evs l0 d).timedOut = false ∧
    (handle_pool_create_wait u evs l0 d).reply.code = DbusErrorEnum.OK ∧
    (handle_pool_create_wait u evs l0 d).reply.payload.1 = true := by
  have hl : (l0.insert u none).get u = some none := Ledger.get_insert_self l0 u none
  rcases waitTimeoutWhile_publish_observed u evs (l0.insert u none) hl ⟨r, hmem⟩ hnov
    with ⟨l', r', hrun, hget⟩
  obtain ⟨pp, bps⟩ := r'
  unfold handle_pool_create_wait
  simp [hrun, hget]

/-- C1 witness: a producer publishing immediately after insertion (the first
wake the waiter can observe) is seen and the wait succeeds. -/
theorem handle_pool_create_wait_no_lost_wakeup_witness :
    (PoolEvent.publish "u1" ("/pool/1", ["/bd/1"]) ∈
      [PoolEvent.publish "u1" ("/pool/1", ["/bd/1"])]) ∧
    (PoolEvent.vanish "u1" ∉ [PoolEvent.publish "u1" ("/pool/1", ["/bd/1"])]) ∧
    ((handle_pool_create_wait "u1" [PoolEvent.publish "u1" ("/pool/1", ["/bd/1"])]
        Ledger.empty (false, ("/", []))).timedOut = false ∧
     (handle_pool_create_wait "u1" [PoolEvent.publish "u1" ("/pool/1", ["/bd/1"])]
        Ledger.empty (false, ("/", []))).reply.code = DbusErrorEnum.OK ∧
     (handle_pool_create_wait "u1" [PoolEvent.publish "u1" ("/pool/1", ["/bd/1"])]
        Ledger.empty (false, ("/", []))).reply.payload.1 = true) :=
  ⟨by decide, by decide,
    handle_pool_create_wait_no_lost_wakeup "u1" ("/pool/1", ["/bd/1"])
      [PoolEvent.publish "u1" ("/pool/1", ["/bd/1"])] Ledger.empty (false, ("/", []))
      (by decide) (by decide)⟩

/-- C2: if no producer ever publishes a completion record for the uuid, the
wait ends (by timeout or because the key vanished) and the handler returns
the default payload with the classified non-zero "Pool with UUID ... was
not found after creation was requested" error; the model's wait is total,
so the handler never blocks past its schedule. -/
theorem handle_pool_create_wait_not_found (u : PoolUuid) (evs : List PoolEvent)
    (l0 : Ledger) (d : Bool × (String × List String))
    (hnp : ∀ r, PoolEvent.publish u r ∉ evs) :
    (handle_pool_create_wait u evs l0 d).reply =
      { payload := d, code := DbusErrorEnum.ERROR,
        msg := "Pool with UUID " ++ u ++
          " was not found after creation was requested" } ∧
    (handle_pool_create_wait u evs l0 d).reply.code ≠ DbusErrorEnum.OK := by
  have h := handle_pool_create_wait_reply_of_no_publish u evs l0 d hnp
  refine ⟨h, ?_⟩
  rw [h]
  simp [DbusErrorEnum.ERROR, DbusErrorEnum.OK]

/-- C2 witness: a wait whose schedule contains no publish for the uuid (a
pure timeout run) returns the classified not-found error. -/
theorem handle_pool_create_wait_not_found_witness :
    (∀ r, PoolEvent.publish "u2" r ∉ ([] : List PoolEvent)) ∧
    ((handle_pool_create_wait "u2" [] Ledger.empty (false, ("/", []))).reply =
      { payload := (false, ("/", [])), code := DbusErrorEnum.ERROR,
        msg := "Pool with UUID " ++ "u2" ++
          " was not found after creation was requested" } ∧
     (handle_pool_create_wait "u2" [] Ledger.empty
        (false, ("/", []))).reply.code ≠ DbusErrorEnum.OK) :=
  ⟨by simp,
    handle_pool_create_wait_not_found "u2" [] Ledger.empty (false, ("/", []))
      (by simp)⟩

/-- C3: on every exit path of `handle_pool_create_wait` — success, timeout,
or vanished key, i.e. for every event schedule — the uuid's entry has been
removed from the ledger when the handler returns. -/
theorem handle_pool_create_wait_removes_entry (u : PoolUuid)
    (evs : List PoolEvent) (l0 : Ledger) (d : Bool × (String × List String)) :
    (handle_pool_create_wait u evs l0 d).ledger.get u = none := by
  unfold handle_pool_create_wait
  dsimp only
  split <;> simp [Ledger.get_remove_self]

/-- C4: with a simulated engine and a `Created(uuid)` action,
`handle_pool_create` returns the full success payload synchronously and
leaves the ledger untouched: no entry for the uuid (or any other) is ever
inserted, and no effect beyond the reply is recorded. -/
theorem handle_pool_create_sim_synchronous (u : PoolUuid)
    (simPool : String × List String) (evs : List PoolEvent) (l0 : Ledger)
    (d : Bool × (String × List String)) :
    handle_pool_create true simPool (CreateAction.Created u) evs l0 d =
      { reply := { payload := (true, simPool), code := DbusErrorEnum.OK,
                   msg := okString }
        ledger := l0
        timedOut := false
        effects := [] } := rfl

/-- C5: when the key description parses and the engine's `set` succeeds, the
reply payload is `(true, false)` for `Created`, `(true, true)` for
`ValueChanged`, `(false, false)` for `Identity`, always with code 0. -/
theorem set_key_action_mapping (keyDescParse : Except StratisError KeyDescription)
    (kd : KeyDescription) (hparse : keyDescParse = Except.ok kd)
    (engineResult : Except StratisError (MappingCreateAction KeyDescription))
    (a : MappingCreateAction KeyDescription) (hok : engineResult = Except.ok a) :
    (set_key keyDescParse engineResult).1 =
      { payload :=
          match a with
          | .Created _ => (true, false)
          | .ValueChanged _ => (true, true)
          | .Identity => (false, false)
        code := DbusErrorEnum.OK
        msg := okString } := by
  subst hparse hok
  cases a <;> rfl

/-- C5 witness: a `ValueChanged` engine action yields `(true, true)` with
code 0. -/
theorem set_key_action_mapping_witness :
    ((Except.ok "kd" : Except StratisError KeyDescription) = Except.ok "kd") ∧
    ((Except.ok (MappingCreateAction.ValueChanged "kd") :
        Except StratisError (MappingCreateAction KeyDescription)) =
      Except.ok (MappingCreateAction.ValueChanged "kd")) ∧
    (set_key (Except.ok "kd")
        (Except.ok (MappingCreateAction.ValueChanged "kd"))).1 =
      { payload := (true, true), code := DbusErrorEnum.OK, msg := okString } :=
  ⟨rfl, rfl,
    set_key_action_mapping (Except.ok "kd") "kd" rfl
      (Except.ok (MappingCreateAction.ValueChanged "kd"))
      (MappingCreateAction.ValueChanged "kd") rfl⟩

/-- C6: when the key description parses and the engine's `unset` succeeds,
the reply payload is `true` iff the engine action is `Deleted`, with code 0;
in particular an `Identity` action (key was never set) yields `false` with
code 0, not an error. -/
theorem unset_key_deleted_iff (keyDescParse : Except StratisError KeyDescription)
    (kd : KeyDescription) (hparse : keyDescParse = Except.ok kd)
    (engineResult : Except StratisError (MappingDeleteAction KeyDescription))
    (a : MappingDeleteAction KeyDescription) (hok : engineResult = Except.ok a) :
    ((unset_key keyDescParse engineResult).1.payload = true ↔
      ∃ v, a = MappingDeleteAction.Deleted v) ∧
    (unset_key keyDescParse engineResult).1.code = DbusErrorEnum.OK ∧
    (a = MappingDeleteAction.Identity →
      (unset_key keyDescParse engineResult).1.payload = false) := by
  subst hparse hok
  cases a <;> simp [unset_key]

/-- C6 witness: unsetting a key the engine reports as never set (`Identity`)
returns `false` with code 0. -/
theorem unset_key_deleted_iff_witness :
    ((Except.ok "kd" : Except StratisError KeyDescription) = Except.ok "kd") ∧
    ((Except.ok (MappingDeleteAction.Identity) :
        Except StratisError (MappingDeleteAction KeyDescription)) =
      Except.ok MappingDeleteAction.Identity) ∧
    (((unset_key (Except.ok "kd")
        (Except.ok MappingDeleteAction.Identity)).1.payload = true ↔
      ∃ v, (MappingDeleteAction.Identity : MappingDeleteAction KeyDescription) =
        MappingDeleteAction.Deleted v) ∧
     (unset_key (Except.ok "kd")
        (Except.ok MappingDeleteAction.Identity)).1.code = DbusErrorEnum.OK ∧
     ((MappingDeleteAction.Identity : MappingDeleteAction KeyDescription) =
        MappingDeleteAction.Identity →
      (unset_key (Except.ok "kd")
        (Except.ok MappingDeleteAction.Identity)).1.payload = false)) :=
  ⟨rfl, rfl,
    unset_key_deleted_iff (Except.ok "kd") "kd" rfl
      (Except.ok MappingDeleteAction.Identity) MappingDeleteAction.Identity rfl⟩

/-- C7 counterexample: a destroy-pool request whose path resolves to a known
filesystem object — which does not resolve to any known pool — returns a
non-zero code, refuting the claim's "never a non-zero code" over that input
class; the `typed_uuid!` wrong-type early return is an error reply. -/
theorem destroy_pool_nonpool_object_counterexample :
    (destroy_pool (some (StratisUuid.Fs "f1"))
        (Except.ok DeleteAction.Identity)).1.code ≠ DbusErrorEnum.OK := by
  decide

/-- C7 (amended): a destroy-pool request whose path resolves to no object
with data in the tree returns the no-op success reply `(false, nil uuid)`
with code 0 and the OK message and records no engine invocation; a path
that resolves to a known object of non-pool kind (filesystem or blockdev)
instead returns the default payload with a classified non-zero error, also
without any engine invocation. -/
theorem destroy_pool_unknown_path_amended
    (engineResult : Except StratisError (DeleteAction PoolUuid))
    (fsUuid devUuid : PoolUuid) :
    destroy_pool none engineResult =
      ({ payload := (false, nilUuidString), code := DbusErrorEnum.OK,
         msg := okString }, []) ∧
    ((destroy_pool (some (StratisUuid.Fs fsUuid)) engineResult).1.payload =
        (false, nilUuidString) ∧
     (destroy_pool (some (StratisUuid.Fs fsUuid)) engineResult).1.code ≠
        DbusErrorEnum.OK ∧
     (destroy_pool (some (StratisUuid.Fs fsUuid)) engineResult).2 = []) ∧
    ((destroy_pool (some (StratisUuid.Blockdev devUuid)) engineResult).1.payload =
        (false, nilUuidString) ∧
     (destroy_pool (some (StratisUuid.Blockdev devUuid)) engineResult).1.code ≠
        DbusErrorEnum.OK ∧
     (destroy_pool (some (StratisUuid.Blockdev devUuid)) engineResult).2 = []) := by
  refine ⟨rfl, ⟨rfl, ?_, rfl⟩, ⟨rfl, ?_, rfl⟩⟩ <;>
    simp [destroy_pool, engine_to_dbus_err_tuple, DbusErrorEnum.ERROR,
      DbusErrorEnum.OK]

/-- C8: a create-pool request with a present redundancy code `n ≠ 0` is
rejected with code 1 and a message naming `n`, with no effects (in
particular no engine call); redundancy absent or present-with-0 passes the
check and (with no encryption parameters) reaches the engine. -/
theorem create_pool_redundancy_check (n : Nat) (hn : n ≠ 0)
    (key_desc_arg : Bool × String) (clevis_arg : Bool × (String × String))
    (tryKeyDesc : String → Except StratisError KeyDescription)
    (parseJson : String → Except String Json)
    (engineResult : Option EncryptionInfo → Except StratisError (CreateAction PoolUuid))
    (is_sim : Bool) (simPool : String × List String)
    (evs : List PoolEvent) (l0 : Ledger) (m : Nat) :
    (create_pool (true, n) key_desc_arg clevis_arg tryKeyDesc parseJson
        engineResult is_sim simPool evs l0).reply =
      { payload := (false, (dbusPathDefault, []))
        code := 1
        msg := "code " ++ toString n ++
          " does not correspond to any redundancy" } ∧
    (create_pool (true, n) key_desc_arg clevis_arg tryKeyDesc parseJson
        engineResult is_sim simPool evs l0).effects = [] ∧
    Effect.engineCreatePool none ∈
      (create_pool (false, m) (false, "") (false, ("", "")) tryKeyDesc parseJson
        engineResult is_sim simPool evs l0).effects ∧
    Effect.engineCreatePool none ∈
      (create_pool (true, 0) (false, "") (false, ("", "")) tryKeyDesc parseJson
        engineResult is_sim simPool evs l0).effects := by
  obtain ⟨k, rfl⟩ : ∃ k, n = k + 1 :=
    ⟨n - 1, (Nat.succ_pred_eq_of_pos (Nat.pos_of_ne_zero hn)).symm⟩
  refine ⟨?_, ?_, ?_, ?_⟩
  · simp [create_pool, tuple_to_option]
  · simp [create_pool, tuple_to_option]
  · cases h : engineResult none with
    | ok act =>
        simp [create_pool, tuple_to_option, EncryptionInfo.from_options, h]
    | error x =>
        simp [create_pool, tuple_to_option, EncryptionInfo.from_options, h]
  · cases h : engineResult none with
    | ok act =>
        simp [create_pool, tuple_to_option, EncryptionInfo.from_options, h]
    | error x =>
        simp [create_pool, tuple_to_option, EncryptionInfo.from_options, h]

/-- C8 witness: redundancy code 7 is rejected with a message naming 7 and no
engine call; absent or zero redundancy reaches the engine. -/
theorem create_pool_redundancy_check_witness :
    ((7 : Nat) ≠ 0) ∧
    ((create_pool (true, 7) (false, "") (false, ("", ""))
        (fun s => Except.ok s) (fun s => Except.ok s)
        (fun _ => Except.ok CreateAction.Identity) false ("", []) []
        Ledger.empty).reply =
      { payload := (false, (dbusPathDefault, []))
        code := 1
        msg := "code " ++ toString (7 : Nat) ++
          " does not correspond to any redundancy" } ∧
     (create_pool (true, 7) (false, "") (false, ("", ""))
        (fun s => Except.ok s) (fun s => Except.ok s)
        (fun _ => Except.ok CreateAction.Identity) false ("", []) []
        Ledger.empty).effects = [] ∧
     Effect.engineCreatePool none ∈
       (create_pool (false, 0) (false, "") (false, ("", ""))
          (fun s => Except.ok s) (fun s => Except.ok s)
          (fun _ => Except.ok CreateAction.Identity) false ("", []) []
          Ledger.empty).effects ∧
     Effect.engineCreatePool none ∈
       (create_pool (true, 0) (false, "") (false, ("", ""))
          (fun s => Except.ok s) (fun s => Except.ok s)
          (fun _ => Except.ok CreateAction.Identity) false ("", []) []
          Ledger.empty).effects) :=
  ⟨by decide,
    create_pool_redundancy_check 7 (by decide) (false, "") (false, ("", ""))
      (fun s => Except.ok s) (fun s => Except.ok s)
      (fun _ => Except.ok CreateAction.Identity) false ("", []) []
      Ledger.empty 0⟩

/-- C9: a supplied key description failing validation, or a supplied Clevis
policy text failing to parse, makes `create_pool` return the default payload
with the classified non-zero error and no effects (the engine is never
called); with both encryption parameters absent, the engine is called with
no encryption info. -/
theorem create_pool_encryption_validation (rt : Bool × Nat)
    (hred : tuple_to_option rt = none ∨ tuple_to_option rt = some 0)
    (tryKeyDesc : String → Except StratisError KeyDescription)
    (parseJson : String → Except String Json)
    (engineResult : Option EncryptionInfo → Except StratisError (CreateAction PoolUuid))
    (is_sim : Bool) (simPool : String × List String)
    (evs : List PoolEvent) (l0 : Ledger)
    (kds : String) (e1 : StratisError) (hkd : tryKeyDesc kds = Except.error e1)
    (clevis_arg : Bool × (String × String))
    (key_desc_arg : Bool × String) (hka : tuple_to_option key_desc_arg = none)
    (pin js : String) (e2 : String) (hjs : parseJson js = Except.error e2) :
    ((create_pool rt (true, kds) clevis_arg tryKeyDesc parseJson engineResult
        is_sim simPool evs l0).reply =
      { payload := (false, (dbusPathDefault, []))
        code := DbusErrorEnum.ERROR
        msg := e1.render } ∧
     (create_pool rt (true, kds) clevis_arg tryKeyDesc parseJson engineResult
        is_sim simPool evs l0).effects = []) ∧
    ((create_pool rt key_desc_arg (true, (pin, js)) tryKeyDesc parseJson
        engineResult is_sim simPool evs l0).reply =
      { payload := (false, (dbusPathDefault, []))
        code := DbusErrorEnum.ERROR
        msg := e2 } ∧
     (create_pool rt key_desc_arg (true, (pin, js)) tryKeyDesc parseJson
        engineResult is_sim simPool evs l0).effects = []) ∧
    DbusErrorEnum.ERROR ≠ 0 ∧
    Effect.engineCreatePool none ∈
      (create_pool rt (false, "") (false, ("", "")) tryKeyDesc parseJson
        engineResult is_sim simPool evs l0).effects := by
  rcases hred with h | h <;>
    refine ⟨⟨?_, ?_⟩, ⟨?_, ?_⟩, by simp [DbusErrorEnum.ERROR], ?_⟩ <;>
    cases he : engineResult none <;>
      simp [create_pool, h, tuple_to_option_true, tuple_to_option_false,
        hka, hkd, hjs, engine_to_dbus_err_tuple, StratisError.render,
        EncryptionInfo.from_options, he]

/-- C9 witness: concrete failing validators — an invalid key description and
an unparsable policy text are rejected before the engine; with both
parameters absent the engine is reached with no encryption info. -/
theorem create_pool_encryption_validation_witness :
    (tuple_to_option ((false, 0) : Bool × Nat) = none ∨
      tuple_to_option ((false, 0) : Bool × Nat) = some 0) ∧
    ((fun _ => Except.error (StratisError.Msg "malformed key description") :
        String → Except StratisError KeyDescription) "bad key" =
      Except.error (StratisError.Msg "malformed key description")) ∧
    (tuple_to_option ((false, "") : Bool × String) = none) ∧
    ((fun _ => Except.error "expected value" :
        String → Except String Json) "not json" =
      Except.error "expected value") ∧
    (((create_pool (false, 0) (true, "bad key") (false, ("", ""))
          (fun _ => Except.error (StratisError.Msg "malformed key description"))
          (fun _ => Except.error "expected value")
          (fun _ => Except.ok CreateAction.Identity) false ("", []) []
          Ledger.empty).reply =
        { payload := (false, (dbusPathDefault, []))
          code := DbusErrorEnum.ERROR
          msg := (StratisError.Msg "malformed key description").render } ∧
      (create_pool (false, 0) (true, "bad key") (false, ("", ""))
          (fun _ => Except.error (StratisError.Msg "malformed key description"))
          (fun _ => Except.error "expected value")
          (fun _ => Except.ok CreateAction.Identity) false ("", []) []
          Ledger.empty).effects = []) ∧
     ((create_pool (false, 0) (false, "") (true, ("tang", "not json"))
          (fun _ => Except.error (StratisError.Msg "malformed key description"))
          (fun _ => Except.error "expected value")
          (fun _ => Except.ok CreateAction.Identity) false ("", []) []
          Ledger.empty).reply =
        { payload := (false, (dbusPathDefault, []))
          code := DbusErrorEnum.ERROR
          msg := "expected value" } ∧
      (create_pool (false, 0) (false, "") (true, ("tang", "not json"))
          (fun _ => Except.error (StratisError.Msg "malformed key description"))
          (fun _ => Except.error "expected value")
          (fun _ => Except.ok CreateAction.Identity) false ("", []) []
          Ledger.empty).effects = []) ∧
     DbusErrorEnum.ERROR ≠ 0 ∧
     Effect.engineCreatePool none ∈
       (create_pool (false, 0) (false, "") (false, ("", ""))
          (fun _ => Except.error (StratisError.Msg "malformed key description"))
          (fun _ => Except.error "expected value")
          (fun _ => Except.ok CreateAction.Identity) false ("", []) []
          Ledger.empty).effects) :=
  ⟨Or.inl rfl, rfl, rfl, rfl,
    create_pool_encryption_validation (false, 0) (Or.inl rfl)
      (fun _ => Except.error (StratisError.Msg "malformed key description"))
      (fun _ => Except.error "expected value")
      (fun _ => Except.ok CreateAction.Identity) false ("", []) [] Ledger.empty
      "bad key" (StratisError.Msg "malformed key description") rfl
      (false, ("", "")) (false, "") rfl
      "tang" "not json" "expected value" rfl⟩

/-- C10: the caller-visible reply on a pure timeout (no wake before the
deadline) is identical to the vanished-key reply — same classified
not-found error, same default payload; only the internal `timed_out()` flag
(which the source merely logs) distinguishes the two runs. -/
theorem handle_pool_create_wait_timeout_indistinguishable (u : PoolUuid)
    (l0 lv : Ledger) (d : Bool × (String × List String))
    (evs : List PoolEvent) (hnp : ∀ r, PoolEvent.publish u r ∉ evs) :
    (handle_pool_create_wait u [] l0 d).timedOut = true ∧
    (handle_pool_create_wait u [PoolEvent.vanish u] lv d).timedOut = false ∧
    (handle_pool_create_wait u evs l0 d).reply =
      (handle_pool_create_wait u [PoolEvent.vanish u] lv d).reply := by
  refine ⟨?_, ?_, ?_⟩
  · have hrun : waitTimeoutWhile u [] (l0.insert u none) = (l0.insert u none, true) := by
      simp [waitTimeoutWhile, waitPred, Ledger.get_insert_self]
    unfold handle_pool_create_wait
    simp [hrun, Ledger.get_insert_self]
  · have hrun : waitTimeoutWhile u [PoolEvent.vanish u] (lv.insert u none) =
        ((lv.insert u none).remove u, false) := by
      simp [waitTimeoutWhile, waitPred, Ledger.get_insert_self, PoolEvent.apply,
        Ledger.get_remove_self]
    unfold handle_pool_create_wait
    simp [hrun, Ledger.get_remove_self]
  · rw [handle_pool_create_wait_reply_of_no_publish u evs l0 d hnp,
      handle_pool_create_wait_reply_of_no_publish u [PoolEvent.vanish u] lv d
        (by simp)]

/-- C10 witness: a concrete timed-out run and a concrete vanished-key run
produce the identical reply. -/
theorem handle_pool_create_wait_timeout_indistinguishable_witness :
    (∀ r, PoolEvent.publish "u3" r ∉ ([] : List PoolEvent)) ∧
    ((handle_pool_create_wait "u3" [] Ledger.empty (false, ("/", []))).timedOut = true ∧
     (handle_pool_create_wait "u3" [PoolEvent.vanish "u3"] Ledger.empty
        (false, ("/", []))).timedOut = false ∧
     (handle_pool_create_wait "u3" [] Ledger.empty (false, ("/", []))).reply =
       (handle_pool_create_wait "u3" [PoolEvent.vanish "u3"] Ledger.empty
          (false, ("/", []))).reply) :=
  ⟨by simp,
    handle_pool_create_wait_timeout_indistinguishable "u3" Ledger.empty
      Ledger.empty (false, ("/", [])) [] (by simp)⟩

end Stratisd
